import Mathlib

/-!
# Houses and flats: the storage core and its handlers

A shallow embedding of `internal/storage/sqlite/storage.go` and
`internal/handlers/handlers.go`.

The SQLite database behind `Storage.db` is an explicit value of type `DB`: the
rows of the `houses` and `flats` tables in row order. Every storage method
takes the database and returns its result together with the database after the
call. The clock read by `time.Now()` and by SQLite's `datetime('now')` is an
explicit argument `now`, a number of whole seconds on the UTC axis (both the
layout `2006-01-02 15:04:05` and `datetime('now')` have one-second resolution).
`datetime('now')` writes the UTC reading. `time.Now().Format` writes the wall
time of the process's zone and drops the zone, and the driver reads a text
without zone back as UTC; the zone's offset is the explicit argument
`zoneOffset` of `CreateHouse`.

Failures of the connection itself (a query that cannot be prepared or
executed because the database is unreachable) are not part of the model; the
statements fail only for the reasons the schema gives: a `UNIQUE` violation,
or a `SELECT` that finds no row (`sql.ErrNoRows`). The handle built by `New`
always carries a connection, so the `s.db == nil` guard of `CreateHouse` is
never taken. The `FOREIGN KEY` clause of `flats` plays no part: `CreateFlat`
inserts only after it has found the house, so the insert satisfies the clause
whether or not SQLite enforces it.
-/

namespace api

/-- Modelled from the spec: the type `api.HouseId` of the generated `api`
package, an integer (it is printed with `%d` and compared with `0`). -/
abbrev HouseId := Int

/-- Modelled from the spec: the type `api.FlatId` of the generated `api`
package, the integer unit number of a flat. -/
abbrev FlatId := Int

/-- Modelled from the spec: the type `api.Status` of the generated `api`
package, a string; a decoded payload may carry any string. -/
abbrev Status := String

/-- Modelled from the spec: the constant `api.Created`, the status a flat
starts with (`status:"created"` in the spec's scenario). -/
def Created : Status := "created"

/-- Modelled from the spec: the constant `api.Approved`
(`status:"approved"` in the spec's scenario). -/
def Approved : Status := "approved"

end api

/-- A point in time: whole seconds on the UTC axis. -/
abbrev Time := Int

namespace api

/-- Modelled from the spec: the struct `api.House` of the generated `api`
package, with the six fields `CreateHouse` reads and scans. -/
structure House where
  Address : String
  CreatedAt : Option Time
  Developer : Option String
  Id : HouseId
  UpdateAt : Option Time
  Year : Int
deriving DecidableEq, Repr

/-- Modelled from the spec: the struct `api.Flat` of the generated `api`
package, with the five fields the storage methods read and scan. -/
structure Flat where
  HouseId : api.HouseId
  Id : FlatId
  Price : Int
  Rooms : Int
  Status : api.Status
deriving DecidableEq, Repr

end api

/-- A row of the table `houses` (storage.go, lines 33-41). -/
structure HouseRow where
  id : Nat
  unique_id : api.HouseId
  address : String
  year : Int
  developer : Option String
  created_at : Time
  update_at : Option Time
deriving DecidableEq, Repr

/-- A row of the table `flats` (storage.go, lines 42-50). -/
structure FlatRow where
  id : Nat
  house_unique_id : api.HouseId
  flat_id : api.FlatId
  price : Int
  rooms : Int
  status : api.Status
deriving DecidableEq, Repr

/-- The contents of the database: both tables, in row order. -/
structure DB where
  houses : List HouseRow
  flats : List FlatRow
deriving DecidableEq, Repr

/-- The database right after `New`: both tables exist and are empty. -/
def DB.empty : DB := { houses := [], flats := [] }

/-- The errors the storage methods return, one constructor per `fmt.Errorf`
site that the model can reach. -/
inductive StorageError where
  | houseAlreadyExists (id : api.HouseId)
  | executeStatement
  | scanRow
  | houseDoesNotExist (id : api.HouseId)
  | flatAlreadyExists (flat : api.FlatId) (house : api.HouseId)
deriving DecidableEq, Repr

deriving instance DecidableEq for Except

/-- The key SQLite gives a row inserted without an explicit `id` into a table
with `id INTEGER PRIMARY KEY`: one more than the largest key in use. -/
def nextHouseRowId (rows : List HouseRow) : Nat :=
  rows.foldl (fun m r => max m r.id) 0 + 1

/-- Same as `nextHouseRowId`, for the table `flats`. -/
def nextFlatRowId (rows : List FlatRow) : Nat :=
  rows.foldl (fun m r => max m r.id) 0 + 1

/-- The row predicate `WHERE flat_id = ? AND house_unique_id = ?`. -/
def flatKeyMatches (flatId : api.FlatId) (houseId : api.HouseId) (r : FlatRow) : Bool :=
  r.flat_id == flatId && r.house_unique_id == houseId

/-- The columns `house_unique_id, flat_id, price, rooms, status` of a row,
scanned into an `api.Flat`. -/
def scanFlat (r : FlatRow) : api.Flat :=
  { HouseId := r.house_unique_id, Id := r.flat_id, Price := r.price, Rooms := r.rooms,
    Status := r.status }

namespace Storage

/-- `Storage.CreateHouse` (storage.go, lines 77-146). `now` is the instant
`time.Now()` reads and `zoneOffset` the offset, in seconds east of UTC, of the
process's zone: line 111 formats the local wall time without its zone, and the
re-read of lines 127-140 takes that text as UTC, so the stored and returned
`created_at` is the instant `now + zoneOffset`. -/
def CreateHouse (now : Time) (zoneOffset : Int) (house : api.House) (db : DB) :
    Except StorageError api.House × DB :=
  -- SELECT id FROM houses WHERE unique_id = ?; on sql.ErrNoRows existingId stays 0
  let existingId : Nat :=
    match db.houses.find? (fun r => r.unique_id == house.Id) with
    | some r => r.id
    | none => 0
  if existingId != 0 then
    (.error (.houseAlreadyExists house.Id), db)
  else if db.houses.any (fun r => r.unique_id == house.Id) then
    -- INSERT rejected by the UNIQUE constraint on unique_id
    (.error .executeStatement, db)
  else
    let id := nextHouseRowId db.houses
    let inserted : HouseRow :=
      { id := id, unique_id := house.Id, address := house.Address,
        created_at := now + zoneOffset,
        developer := house.Developer, update_at := house.UpdateAt, year := house.Year }
    let db1 : DB := { db with houses := db.houses ++ [inserted] }
    -- SELECT unique_id, address, created_at, developer, update_at, year FROM houses WHERE id = ?
    match db1.houses.find? (fun r => r.id == id) with
    | none => (.error .scanRow, db1)
    | some r =>
      (.ok { Id := r.unique_id, Address := r.address, CreatedAt := some r.created_at,
             Developer := r.developer, UpdateAt := r.update_at, Year := r.year }, db1)

/-- `Storage.UpdateHouseTimestamp` (storage.go, lines 148-173). -/
def UpdateHouseTimestamp (now : Time) (houseId : api.HouseId) (db : DB) :
    Except StorageError Unit × DB :=
  -- UPDATE houses SET update_at = datetime('now') WHERE unique_id = ?
  let db1 : DB :=
    { db with houses := db.houses.map (fun r =>
        if r.unique_id == houseId then { r with update_at := some now } else r) }
  let rowsAffected := (db.houses.filter (fun r => r.unique_id == houseId)).length
  if rowsAffected == 0 then
    (.error (.houseDoesNotExist houseId), db1)
  else
    (.ok (), db1)

/-- `Storage.CreateFlat` (storage.go, lines 175-237). -/
def CreateFlat (flatToCreate : api.Flat) (db : DB) : Except StorageError api.Flat × DB :=
  -- SELECT id FROM houses WHERE unique_id = ?
  match db.houses.find? (fun r => r.unique_id == flatToCreate.HouseId) with
  | none => (.error (.houseDoesNotExist flatToCreate.HouseId), db)
  | some _ =>
    -- SELECT id FROM flats WHERE flat_id = ? AND house_unique_id = ?
    match db.flats.find? (flatKeyMatches flatToCreate.Id flatToCreate.HouseId) with
    | some _ => (.error (.flatAlreadyExists flatToCreate.Id flatToCreate.HouseId), db)
    | none =>
      let inserted : FlatRow :=
        { id := nextFlatRowId db.flats, house_unique_id := flatToCreate.HouseId,
          flat_id := flatToCreate.Id, price := flatToCreate.Price, rooms := flatToCreate.Rooms,
          status := api.Created }
      let createdFlat : api.Flat :=
        { Id := flatToCreate.Id, HouseId := flatToCreate.HouseId, Price := flatToCreate.Price,
          Rooms := flatToCreate.Rooms, Status := api.Created }
      (.ok createdFlat, { db with flats := db.flats ++ [inserted] })

/-- `Storage.UpdateFlat` (storage.go, lines 239-267). -/
def UpdateFlat (flat : api.Flat) (db : DB) : Except StorageError api.Flat × DB :=
  -- UPDATE flats SET status = ? WHERE flat_id = ? AND house_unique_id = ?
  let db1 : DB :=
    { db with flats := db.flats.map (fun r =>
        if flatKeyMatches flat.Id flat.HouseId r then { r with status := flat.Status } else r) }
  -- SELECT house_unique_id, flat_id, price, rooms, status FROM flats WHERE ...
  match db1.flats.find? (flatKeyMatches flat.Id flat.HouseId) with
  | none => (.error .scanRow, db1)
  | some r => (.ok (scanFlat r), db1)

/-- `Storage.GetAllFlatsByHouseId` (storage.go, lines 269-293). -/
def GetAllFlatsByHouseId (houseId : api.HouseId) (db : DB) : Except StorageError (List api.Flat) :=
  .ok ((db.flats.filter (fun r => r.house_unique_id == houseId)).map scanFlat)

/-- `Storage.GetApprovedFlatsByHouseId` (storage.go, lines 295-319). -/
def GetApprovedFlatsByHouseId (houseId : api.HouseId) (db : DB) :
    Except StorageError (List api.Flat) :=
  .ok ((db.flats.filter (fun r => r.house_unique_id == houseId && r.status == api.Approved)).map
    scanFlat)

end Storage

/-- What a handler sees of a request: the `Authorization` header and the
outcome of decoding the JSON body (`none` when decoding fails). -/
structure Request (α : Type) where
  Authorization : String
  Body : Option α

/-- What a handler writes: a JSON body (status 200) or `http.Error`. -/
inductive Response (α : Type) where
  | json (body : α)
  | error (msg : String) (code : Nat)
deriving DecidableEq, Repr

def StatusBadRequest : Nat := 400
def StatusForbidden : Nat := 403
def StatusInternalServerError : Nat := 500

namespace MyServer

/-- `MyServer.isModerator` (handlers.go, lines 16-28). The prefix is seven
ASCII bytes, so slicing by characters and slicing by bytes agree. -/
def isModerator {α : Type} (r : Request α) : Bool :=
  let token := r.Authorization.data
  let bearerPrefix := "Bearer ".data
  let token :=
    if token.length > bearerPrefix.length && token.take bearerPrefix.length == bearerPrefix then
      token.drop bearerPrefix.length
    else token
  token == "moderator-token".data

/-- `MyServer.PostFlatCreate` (handlers.go, lines 53-77). -/
def PostFlatCreate (now : Time) (r : Request api.Flat) (db : DB) : Response api.Flat × DB :=
  match r.Body with
  | none => (.error "Invalid request payload" StatusBadRequest, db)
  | some flat =>
    match Storage.CreateFlat flat db with
    | (.error _, db1) => (.error "Failed to create flat" StatusInternalServerError, db1)
    | (.ok createdFlat, db1) =>
      match Storage.UpdateHouseTimestamp now flat.HouseId db1 with
      | (.error _, db2) =>
        (.error "Failed to update house timestamp" StatusInternalServerError, db2)
      | (.ok _, db2) => (.json createdFlat, db2)

/-- `MyServer.PostFlatUpdate` (handlers.go, lines 79-102). -/
def PostFlatUpdate (r : Request api.Flat) (db : DB) : Response api.Flat × DB :=
  if !isModerator r then
    (.error "Forbidden" StatusForbidden, db)
  else
    match r.Body with
    | none => (.error "Invalid request payload" StatusBadRequest, db)
    | some flat =>
      match Storage.UpdateFlat flat db with
      | (.error _, db1) => (.error "Failed to update flat" StatusInternalServerError, db1)
      | (.ok updatedFlat, db1) => (.json updatedFlat, db1)

/-- `MyServer.GetHouseId` (handlers.go, lines 137-157). -/
def GetHouseId {α : Type} (r : Request α) (id : api.HouseId) (db : DB) :
    Response (List api.Flat) :=
  let result :=
    if isModerator r then Storage.GetAllFlatsByHouseId id db
    else Storage.GetApprovedFlatsByHouseId id db
  match result with
  | .error _ => .error "Failed to get flats" StatusInternalServerError
  | .ok flats => .json flats

end MyServer

/-- One call of a storage method that can change the database. -/
inductive Call where
  | CreateHouse (now : Time) (zoneOffset : Int) (house : api.House)
  | CreateFlat (flat : api.Flat)
  | UpdateFlat (flat : api.Flat)
  | UpdateHouseTimestamp (now : Time) (houseId : api.HouseId)
deriving Repr

/-- The database after one call. -/
def Call.apply (c : Call) (db : DB) : DB :=
  match c with
  | .CreateHouse now zoneOffset house => (Storage.CreateHouse now zoneOffset house db).2
  | .CreateFlat flat => (Storage.CreateFlat flat db).2
  | .UpdateFlat flat => (Storage.UpdateFlat flat db).2
  | .UpdateHouseTimestamp now houseId => (Storage.UpdateHouseTimestamp now houseId db).2

/-- The database after a sequence of calls, first call first. -/
def runCalls (calls : List Call) (db : DB) : DB :=
  calls.foldl (fun d c => c.apply d) db

/-- The rows of `flats` with the given house id and unit number. -/
def flatRowsAt (db : DB) (houseId : api.HouseId) (flatId : api.FlatId) : List FlatRow :=
  db.flats.filter (flatKeyMatches flatId houseId)

/-- The `update_at` of the first row of `houses` with the given id; `none`
when there is no such row or its `update_at` is null. -/
def houseUpdateAt (db : DB) (houseId : api.HouseId) : Option Time :=
  match db.houses.find? (fun r => r.unique_id == houseId) with
  | some r => r.update_at
  | none => none

/-- Timestamps with null: null is earlier than every timestamp. -/
def timeLt : Option Time → Option Time → Bool
  | none, some _ => true
  | some a, some b => decide (a < b)
  | _, none => false

/-! ## Invariants -/

/-- The first row of `houses` with id `k` exists and has a non-zero row key:
what the check at the head of `CreateHouse` looks for. -/
def HouseKnown (k : api.HouseId) (db : DB) : Prop :=
  ∃ r, db.houses.find? (fun r => r.unique_id == k) = some r ∧ r.id ≠ 0

/-- No two rows of `flats` share a house id and unit number. -/
def UniqueFlatKeys (db : DB) : Prop :=
  ∀ (houseId : api.HouseId) (flatId : api.FlatId), (flatRowsAt db houseId flatId).length ≤ 1

/-! ## Sample data -/

/-- The house of the spec's scenario, with numeric id 1. -/
def sampleHouse : api.House :=
  { Id := 1, Address := "Main St", Year := 2020, Developer := none, CreatedAt := none,
    UpdateAt := none }

/-- A second payload with the same id as `sampleHouse` and other fields. -/
def sampleHouseAgain : api.House :=
  { Id := 1, Address := "Side St", Year := 1999, Developer := some "Acme", CreatedAt := none,
    UpdateAt := none }

/-- The flat of the spec's scenario; the payload asks for status `approved`. -/
def sampleFlat : api.Flat :=
  { HouseId := 1, Id := 101, Price := 100000, Rooms := 2, Status := "approved" }

/-- A second unit in the same house. -/
def sampleFlat102 : api.Flat :=
  { HouseId := 1, Id := 102, Price := 120000, Rooms := 3, Status := "" }

/-- The database after the house was created at second 90 by a process in
the UTC zone and unit 101 was posted through `PostFlatCreate` at second 100. -/
def sampleDB : DB :=
  (MyServer.PostFlatCreate 100 { Authorization := "", Body := some sampleFlat }
    (Storage.CreateHouse 90 0 sampleHouse DB.empty).2).2

/-! ## Lemmas about the tables -/

theorem sampleDB_eq : sampleDB =
    { houses := [⟨1, 1, "Main St", 2020, none, 90, some 100⟩],
      flats := [⟨1, 1, 101, 100000, 2, "created"⟩] } := by decide


theorem foldl_max_id_ge (rows : List HouseRow) (a : Nat) :
    a ≤ rows.foldl (fun m r => max m r.id) a ∧
      ∀ r ∈ rows, r.id ≤ rows.foldl (fun m r => max m r.id) a := by
  induction rows generalizing a with
  | nil => simp
  | cons x xs ih =>
    simp only [List.foldl_cons, List.mem_cons]
    obtain ⟨h1, h2⟩ := ih (max a x.id)
    refine ⟨le_trans (le_max_left _ _) h1, ?_⟩
    rintro r (rfl | hr)
    · exact le_trans (le_max_right _ _) h1
    · exact h2 r hr

theorem id_lt_nextHouseRowId (rows : List HouseRow) (r : HouseRow) (hr : r ∈ rows) :
    r.id < nextHouseRowId rows := by
  unfold nextHouseRowId
  exact Nat.lt_succ_of_le ((foldl_max_id_ge rows 0).2 r hr)

theorem find?_fresh_rowid (rows : List HouseRow) (x : HouseRow)
    (hx : x.id = nextHouseRowId rows) :
    (rows ++ [x]).find? (fun r => r.id == nextHouseRowId rows) = some x := by
  have hnone : rows.find? (fun r => r.id == nextHouseRowId rows) = none := by
    rw [List.find?_eq_none]
    intro r hr
    have := id_lt_nextHouseRowId rows r hr
    simp only [beq_iff_eq]
    omega
  rw [List.find?_append, hnone]
  simp [hx]

theorem find?_none_of_forall_ne (rows : List HouseRow) (k : api.HouseId)
    (h : ∀ r ∈ rows, r.unique_id ≠ k) :
    rows.find? (fun r => r.unique_id == k) = none := by
  rw [List.find?_eq_none]
  intro r hr
  simpa using h r hr

theorem any_false_of_forall_ne (rows : List HouseRow) (k : api.HouseId)
    (h : ∀ r ∈ rows, r.unique_id ≠ k) :
    rows.any (fun r => r.unique_id == k) = false := by
  rw [List.any_eq_false]
  intro r hr
  simpa using h r hr

/-- With no stored row of that id, `CreateHouse` appends one row and returns it. -/
theorem createHouse_fresh (now : Time) (zoneOffset : Int) (house : api.House) (db : DB)
    (h : ∀ r ∈ db.houses, r.unique_id ≠ house.Id) :
    Storage.CreateHouse now zoneOffset house db =
      (.ok { house with CreatedAt := some (now + zoneOffset) },
       { db with houses := db.houses ++
          [{ id := nextHouseRowId db.houses, unique_id := house.Id, address := house.Address,
             year := house.Year, developer := house.Developer, created_at := now + zoneOffset,
             update_at := house.UpdateAt }] }) := by
  unfold Storage.CreateHouse
  simp only [find?_none_of_forall_ne _ _ h, any_false_of_forall_ne _ _ h]
  have hfind := find?_fresh_rowid db.houses
    { id := nextHouseRowId db.houses, unique_id := house.Id, address := house.Address,
      year := house.Year, developer := house.Developer, created_at := now + zoneOffset,
      update_at := house.UpdateAt } rfl
  simp [hfind, -List.find?_append]

/-- With a stored row of that id, `CreateHouse` fails and changes nothing. -/
theorem createHouse_existing (now : Time) (zoneOffset : Int) (house : api.House) (db : DB)
    (h : ∃ r ∈ db.houses, r.unique_id = house.Id) :
    ∃ e, Storage.CreateHouse now zoneOffset house db = (.error e, db) := by
  have hany : db.houses.any (fun r => r.unique_id == house.Id) = true := by
    rw [List.any_eq_true]
    obtain ⟨r, hr, hk⟩ := h
    exact ⟨r, hr, by simpa using hk⟩
  unfold Storage.CreateHouse
  simp only [hany]
  split
  · exact ⟨_, rfl⟩
  · exact ⟨_, rfl⟩

/-- `CreateHouse` never touches the table `flats`. -/
theorem createHouse_flats (now : Time) (zoneOffset : Int) (house : api.House) (db : DB) :
    (Storage.CreateHouse now zoneOffset house db).2.flats = db.flats := by
  by_cases h : ∀ r ∈ db.houses, r.unique_id ≠ house.Id
  · rw [createHouse_fresh now zoneOffset house db h]
  · push_neg at h
    obtain ⟨e, he⟩ := createHouse_existing now zoneOffset house db h
    rw [he]

/-- `CreateHouse` leaves the table `houses` as it is or appends one row. -/
theorem createHouse_houses (now : Time) (zoneOffset : Int) (house : api.House) (db : DB) :
    (Storage.CreateHouse now zoneOffset house db).2.houses = db.houses ∨
      ∃ x, (Storage.CreateHouse now zoneOffset house db).2.houses = db.houses ++ [x] := by
  by_cases h : ∀ r ∈ db.houses, r.unique_id ≠ house.Id
  · rw [createHouse_fresh now zoneOffset house db h]
    exact Or.inr ⟨_, rfl⟩
  · push_neg at h
    obtain ⟨e, he⟩ := createHouse_existing now zoneOffset house db h
    rw [he]
    exact Or.inl rfl

/-- `UpdateHouseTimestamp` never touches the table `flats`. -/
theorem updateHouseTimestamp_flats (now : Time) (houseId : api.HouseId) (db : DB) :
    (Storage.UpdateHouseTimestamp now houseId db).2.flats = db.flats := by
  unfold Storage.UpdateHouseTimestamp
  simp only
  split <;> rfl

/-- The table `houses` after `UpdateHouseTimestamp`, whatever it returns. -/
theorem updateHouseTimestamp_houses (now : Time) (houseId : api.HouseId) (db : DB) :
    (Storage.UpdateHouseTimestamp now houseId db).2.houses =
      db.houses.map (fun r =>
        if r.unique_id == houseId then { r with update_at := some now } else r) := by
  unfold Storage.UpdateHouseTimestamp
  simp only
  split <;> rfl

/-- `CreateFlat` never touches the table `houses`. -/
theorem createFlat_houses (flat : api.Flat) (db : DB) :
    (Storage.CreateFlat flat db).2.houses = db.houses := by
  unfold Storage.CreateFlat
  split
  · rfl
  · split <;> rfl

/-- `UpdateFlat` never touches the table `houses`. -/
theorem updateFlat_houses (flat : api.Flat) (db : DB) :
    (Storage.UpdateFlat flat db).2.houses = db.houses := by
  unfold Storage.UpdateFlat
  simp only
  split <;> rfl

/-- The table `flats` after `UpdateFlat`, whatever it returns. -/
theorem updateFlat_flats (flat : api.Flat) (db : DB) :
    (Storage.UpdateFlat flat db).2.flats =
      db.flats.map (fun r =>
        if flatKeyMatches flat.Id flat.HouseId r then { r with status := flat.Status } else r) := by
  unfold Storage.UpdateFlat
  simp only
  split <;> rfl

theorem houseKnown_createHouse_error (now : Time) (zoneOffset : Int) (house : api.House) (db : DB)
    (h : HouseKnown house.Id db) :
    Storage.CreateHouse now zoneOffset house db = (.error (.houseAlreadyExists house.Id), db) := by
  obtain ⟨r, hr, hid⟩ := h
  unfold Storage.CreateHouse
  simp [hr, hid]

theorem houseKnown_of_createHouse_ok (now : Time) (zoneOffset : Int) (house created : api.House)
    (db db1 : DB)
    (hok : Storage.CreateHouse now zoneOffset house db = (.ok created, db1)) :
    HouseKnown house.Id db1 := by
  by_cases h : ∀ r ∈ db.houses, r.unique_id ≠ house.Id
  · rw [createHouse_fresh now zoneOffset house db h] at hok
    have hdb : db1 = _ := (Prod.mk.inj hok).2.symm
    subst hdb
    refine ⟨{ id := nextHouseRowId db.houses, unique_id := house.Id, address := house.Address,
              year := house.Year, developer := house.Developer, created_at := now + zoneOffset,
              update_at := house.UpdateAt }, ?_, ?_⟩
    · show (db.houses ++ [_]).find? _ = _
      rw [List.find?_append, find?_none_of_forall_ne _ _ h]
      simp
    · simp [nextHouseRowId]
  · push_neg at h
    obtain ⟨e, he⟩ := createHouse_existing now zoneOffset house db h
    rw [he] at hok
    cases hok

theorem houseKnown_apply (k : api.HouseId) (c : Call) (db : DB) (h : HouseKnown k db) :
    HouseKnown k (c.apply db) := by
  obtain ⟨r, hr, hid⟩ := h
  cases c with
  | CreateHouse now zoneOffset house =>
    rcases createHouse_houses now zoneOffset house db with h1 | ⟨x, h1⟩
    · exact ⟨r, by simp only [Call.apply, h1, hr], hid⟩
    · refine ⟨r, ?_, hid⟩
      simp only [Call.apply, h1]
      rw [List.find?_append, hr]
      rfl
  | CreateFlat flat => exact ⟨r, by simp only [Call.apply, createFlat_houses, hr], hid⟩
  | UpdateFlat flat => exact ⟨r, by simp only [Call.apply, updateFlat_houses, hr], hid⟩
  | UpdateHouseTimestamp now houseId =>
    refine ⟨if r.unique_id == houseId then { r with update_at := some now } else r, ?_, ?_⟩
    · simp only [Call.apply, updateHouseTimestamp_houses]
      rw [List.find?_map]
      have hcomp : ((fun r : HouseRow => r.unique_id == k) ∘ fun r : HouseRow =>
          if r.unique_id == houseId then { r with update_at := some now } else r) =
          fun r => r.unique_id == k := by
        funext x
        simp only [Function.comp]
        split <;> rfl
      rw [hcomp, hr]
      rfl
    · split <;> exact hid

theorem houseKnown_runCalls (k : api.HouseId) (calls : List Call) (db : DB)
    (h : HouseKnown k db) : HouseKnown k (runCalls calls db) := by
  induction calls generalizing db with
  | nil => exact h
  | cons c cs ih => exact ih (c.apply db) (houseKnown_apply k c db h)

/-! ## Lemmas about `CreateFlat` and the key `(house_unique_id, flat_id)` -/

theorem find?_house_isSome (rows : List HouseRow) (k : api.HouseId)
    (h : ∃ r ∈ rows, r.unique_id = k) :
    ∃ r, rows.find? (fun r => r.unique_id == k) = some r := by
  cases hf : rows.find? (fun r => r.unique_id == k) with
  | some r => exact ⟨r, rfl⟩
  | none =>
    rw [List.find?_eq_none] at hf
    obtain ⟨r, hr, hk⟩ := h
    exact absurd (by simpa using hk) (hf r hr)

theorem find?_flat_none (rows : List FlatRow) (u : api.FlatId) (k : api.HouseId)
    (h : ∀ r ∈ rows, ¬ (r.flat_id = u ∧ r.house_unique_id = k)) :
    rows.find? (flatKeyMatches u k) = none := by
  rw [List.find?_eq_none]
  intro r hr
  simpa [flatKeyMatches] using h r hr

theorem find?_flat_isSome (rows : List FlatRow) (u : api.FlatId) (k : api.HouseId)
    (h : ∃ r ∈ rows, r.flat_id = u ∧ r.house_unique_id = k) :
    ∃ r, rows.find? (flatKeyMatches u k) = some r ∧ r.flat_id = u ∧ r.house_unique_id = k := by
  cases hf : rows.find? (flatKeyMatches u k) with
  | some r =>
    have := List.find?_some hf
    exact ⟨r, rfl, by simpa [flatKeyMatches] using this⟩
  | none =>
    rw [List.find?_eq_none] at hf
    obtain ⟨r, hr, hk⟩ := h
    exact absurd (by simpa [flatKeyMatches] using hk) (hf r hr)

/-- Without a row of `houses` for its house, `CreateFlat` refuses the flat. -/
theorem createFlat_no_house (flat : api.Flat) (db : DB)
    (h : ∀ r ∈ db.houses, r.unique_id ≠ flat.HouseId) :
    Storage.CreateFlat flat db = (.error (.houseDoesNotExist flat.HouseId), db) := by
  unfold Storage.CreateFlat
  rw [find?_none_of_forall_ne _ _ h]

/-- With a row of `flats` under its key, `CreateFlat` refuses the flat. -/
theorem createFlat_duplicate (flat : api.Flat) (db : DB)
    (h : ∃ r ∈ db.flats, r.flat_id = flat.Id ∧ r.house_unique_id = flat.HouseId) :
    ∃ e, Storage.CreateFlat flat db = (.error e, db) := by
  obtain ⟨r, hr, _⟩ := find?_flat_isSome _ _ _ h
  unfold Storage.CreateFlat
  split
  · exact ⟨_, rfl⟩
  · rw [hr]
    exact ⟨_, rfl⟩

/-- With the house stored and the key free, `CreateFlat` appends one row. -/
theorem createFlat_fresh (flat : api.Flat) (db : DB)
    (hhouse : ∃ r ∈ db.houses, r.unique_id = flat.HouseId)
    (hfree : ∀ r ∈ db.flats, ¬ (r.flat_id = flat.Id ∧ r.house_unique_id = flat.HouseId)) :
    Storage.CreateFlat flat db =
      (.ok { flat with Status := api.Created },
       { db with flats := db.flats ++
          [{ id := nextFlatRowId db.flats, house_unique_id := flat.HouseId, flat_id := flat.Id,
             price := flat.Price, rooms := flat.Rooms, status := api.Created }] }) := by
  obtain ⟨r, hr⟩ := find?_house_isSome _ _ hhouse
  unfold Storage.CreateFlat
  rw [hr, find?_flat_none _ _ _ hfree]

/-- `CreateFlat` leaves `flats` as it is, or appends one row under a key that
no row had. -/
theorem createFlat_flats (flat : api.Flat) (db : DB) :
    (Storage.CreateFlat flat db).2.flats = db.flats ∨
      ((∀ r ∈ db.flats, ¬ (r.flat_id = flat.Id ∧ r.house_unique_id = flat.HouseId)) ∧
        ∃ x : FlatRow, x.flat_id = flat.Id ∧ x.house_unique_id = flat.HouseId ∧
          (Storage.CreateFlat flat db).2.flats = db.flats ++ [x]) := by
  by_cases hhouse : ∃ r ∈ db.houses, r.unique_id = flat.HouseId
  · by_cases hfree : ∀ r ∈ db.flats, ¬ (r.flat_id = flat.Id ∧ r.house_unique_id = flat.HouseId)
    · rw [createFlat_fresh flat db hhouse hfree]
      exact Or.inr ⟨hfree, _, rfl, rfl, rfl⟩
    · push_neg at hfree
      obtain ⟨e, he⟩ := createFlat_duplicate flat db hfree
      rw [he]
      exact Or.inl rfl
  · push_neg at hhouse
    rw [createFlat_no_house flat db hhouse]
    exact Or.inl rfl

theorem filter_flatKey_eq_nil (rows : List FlatRow) (u : api.FlatId) (k : api.HouseId)
    (h : ∀ r ∈ rows, ¬ (r.flat_id = u ∧ r.house_unique_id = k)) :
    rows.filter (flatKeyMatches u k) = [] := by
  rw [List.filter_eq_nil_iff]
  intro r hr
  simpa [flatKeyMatches] using h r hr

theorem filter_flatKey_map_status (rows : List FlatRow) (u u1 : api.FlatId)
    (k k1 : api.HouseId) (st : api.Status) :
    ((rows.map (fun r =>
        if flatKeyMatches u1 k1 r then { r with status := st } else r)).filter
          (flatKeyMatches u k)).length = (rows.filter (flatKeyMatches u k)).length := by
  induction rows with
  | nil => rfl
  | cons x xs ih =>
    have hx : flatKeyMatches u k
        (if flatKeyMatches u1 k1 x then { x with status := st } else x) =
        flatKeyMatches u k x := by
      split <;> rfl
    simp only [List.map_cons, List.filter_cons, hx]
    split
    · simp only [List.length_cons, ih]
    · exact ih

theorem uniqueFlatKeys_apply (c : Call) (db : DB) (h : UniqueFlatKeys db) :
    UniqueFlatKeys (c.apply db) := by
  intro k u
  have hku := h k u
  unfold flatRowsAt at hku ⊢
  cases c with
  | CreateHouse now zoneOffset house => simpa only [Call.apply, createHouse_flats] using hku
  | UpdateHouseTimestamp now houseId =>
    simpa only [Call.apply, updateHouseTimestamp_flats] using hku
  | UpdateFlat flat =>
    simp only [Call.apply, updateFlat_flats, filter_flatKey_map_status]
    exact hku
  | CreateFlat flat =>
    rcases createFlat_flats flat db with h1 | ⟨hfree, x, hx1, hx2, h1⟩
    · simpa only [Call.apply, h1] using hku
    · simp only [Call.apply, h1, List.filter_append, List.length_append]
      by_cases hkey : flat.Id = u ∧ flat.HouseId = k
      · obtain ⟨rfl, rfl⟩ := hkey
        rw [filter_flatKey_eq_nil _ _ _ hfree]
        simp only [List.length_nil, zero_add]
        exact le_trans (List.length_filter_le _ _) (by simp)
      · have hx : flatKeyMatches u k x = false := by
          simp only [flatKeyMatches, hx1, hx2]
          by_contra hc
          simp only [Bool.not_eq_false, Bool.and_eq_true, beq_iff_eq] at hc
          exact hkey hc
        simp only [List.filter_cons, hx, List.filter_nil, List.length_nil, add_zero]
        exact hku

theorem uniqueFlatKeys_runCalls (calls : List Call) (db : DB) (h : UniqueFlatKeys db) :
    UniqueFlatKeys (runCalls calls db) := by
  induction calls generalizing db with
  | nil => exact h
  | cons c cs ih => exact ih (c.apply db) (uniqueFlatKeys_apply c db h)

theorem uniqueFlatKeys_empty : UniqueFlatKeys DB.empty := by
  intro k u
  simp [flatRowsAt, DB.empty]

/-! ## The claims -/

/-- C1: `CreateFlat` called with a pair `(houseId, unitNumber)` that already
has a row returns an error and leaves the database as it was, and after any
sequence of `CreateHouse`, `CreateFlat`, `UpdateFlat` and
`UpdateHouseTimestamp` calls from the empty database every pair has at most one
row in `flats`. -/
theorem C1_flat_key_unique :
    (∀ (flat : api.Flat) (db : DB),
        (∃ r ∈ db.flats, r.flat_id = flat.Id ∧ r.house_unique_id = flat.HouseId) →
        ∃ e, Storage.CreateFlat flat db = (.error e, db)) ∧
    (∀ (calls : List Call) (houseId : api.HouseId) (flatId : api.FlatId),
        (flatRowsAt (runCalls calls DB.empty) houseId flatId).length ≤ 1) :=
  ⟨createFlat_duplicate,
   fun calls => uniqueFlatKeys_runCalls calls DB.empty uniqueFlatKeys_empty⟩

theorem C1_flat_key_unique_witness :
    (∃ r ∈ sampleDB.flats, r.flat_id = sampleFlat.Id ∧ r.house_unique_id = sampleFlat.HouseId) ∧
    (∃ e, Storage.CreateFlat sampleFlat sampleDB = (.error e, sampleDB)) ∧
    (flatRowsAt (runCalls [.CreateHouse 90 0 sampleHouse, .CreateFlat sampleFlat,
      .CreateFlat sampleFlat] DB.empty) 1 101).length ≤ 1 :=
  have h : ∃ r ∈ sampleDB.flats,
      r.flat_id = sampleFlat.Id ∧ r.house_unique_id = sampleFlat.HouseId :=
    ⟨⟨1, 1, 101, 100000, 2, "created"⟩, by decide, by decide⟩
  ⟨h, C1_flat_key_unique.1 sampleFlat sampleDB h, C1_flat_key_unique.2 _ 1 101⟩

/-- C2: when `CreateHouse` succeeded for a house, a later `CreateHouse` for a
house with the same id (after any further calls) returns the error
`house already exists` and leaves the database, so also the stored row of the
first house, exactly as it was. -/
theorem C2_createHouse_duplicate (now1 now2 : Time) (zone1 zone2 : Int)
    (h1 h2 created : api.House) (db db1 : DB)
    (calls : List Call) (hid : h1.Id = h2.Id)
    (hok : Storage.CreateHouse now1 zone1 h1 db = (.ok created, db1)) :
    Storage.CreateHouse now2 zone2 h2 (runCalls calls db1) =
      (.error (.houseAlreadyExists h2.Id), runCalls calls db1) := by
  have hk : HouseKnown h2.Id db1 := hid ▸ houseKnown_of_createHouse_ok now1 zone1 h1 created db db1 hok
  exact houseKnown_createHouse_error now2 zone2 h2 _ (houseKnown_runCalls h2.Id calls db1 hk)

theorem C2_createHouse_duplicate_witness :
    Storage.CreateHouse 95 0 sampleHouseAgain
        (runCalls [.CreateFlat sampleFlat] (Storage.CreateHouse 90 0 sampleHouse DB.empty).2) =
      (.error (.houseAlreadyExists 1),
        runCalls [.CreateFlat sampleFlat] (Storage.CreateHouse 90 0 sampleHouse DB.empty).2) :=
  C2_createHouse_duplicate 90 95 0 0 sampleHouse sampleHouseAgain
    { sampleHouse with CreatedAt := some 90 } DB.empty
    (Storage.CreateHouse 90 0 sampleHouse DB.empty).2 [.CreateFlat sampleFlat] rfl (by decide)

/-- C3: for a flat whose `houseId` matches no row of `houses`, `CreateFlat`
returns the error `house does not exist` and the database is unchanged; on the
empty database the number of flats stays 0. -/
theorem C3_createFlat_no_house :
    (∀ (flat : api.Flat) (db : DB), (∀ r ∈ db.houses, r.unique_id ≠ flat.HouseId) →
        Storage.CreateFlat flat db = (.error (.houseDoesNotExist flat.HouseId), db)) ∧
    (∀ flat : api.Flat, (Storage.CreateFlat flat DB.empty).2.flats.length = 0) := by
  refine ⟨createFlat_no_house, fun flat => ?_⟩
  rw [createFlat_no_house flat DB.empty (by simp [DB.empty])]
  rfl

theorem C3_createFlat_no_house_witness :
    (∀ r ∈ sampleDB.houses, r.unique_id ≠ ({ sampleFlat with HouseId := 7 } : api.Flat).HouseId) ∧
    Storage.CreateFlat { sampleFlat with HouseId := 7 } sampleDB =
      (.error (.houseDoesNotExist 7), sampleDB) :=
  ⟨by decide, C3_createFlat_no_house.1 { sampleFlat with HouseId := 7 } sampleDB (by decide)⟩

/-- C4: for a caller that `isModerator` does not recognise, `GetHouseId`
answers with exactly the rows of `flats` of that house whose status is
`approved`, in row order (no flat of another status or another house); for a
moderator it answers with every row of that house whatever its status; a house
without matching rows gives the empty list, not an error. -/
theorem C4_getHouseId_listing {α : Type} (r : Request α) (id : api.HouseId) (db : DB) :
    (MyServer.isModerator r = false →
      ∃ flats, MyServer.GetHouseId r id db = .json flats ∧
        flats = (db.flats.filter (fun row =>
          decide (row.house_unique_id = id ∧ row.status = api.Approved))).map scanFlat ∧
        (∀ f ∈ flats, f.HouseId = id ∧ f.Status = api.Approved) ∧
        (∀ row ∈ db.flats, row.house_unique_id = id → row.status = api.Approved →
          scanFlat row ∈ flats)) ∧
    (MyServer.isModerator r = true →
      ∃ flats, MyServer.GetHouseId r id db = .json flats ∧
        flats = (db.flats.filter (fun row => decide (row.house_unique_id = id))).map scanFlat ∧
        (∀ f ∈ flats, f.HouseId = id) ∧
        (∀ row ∈ db.flats, row.house_unique_id = id → scanFlat row ∈ flats)) ∧
    ((∀ row ∈ db.flats, row.house_unique_id ≠ id) → MyServer.GetHouseId r id db = .json []) := by
  refine ⟨fun hmod => ⟨(db.flats.filter (fun row =>
      row.house_unique_id == id && row.status == api.Approved)).map scanFlat, ?_, ?_, ?_, ?_⟩,
    fun hmod => ⟨(db.flats.filter (fun row => row.house_unique_id == id)).map scanFlat,
      ?_, ?_, ?_, ?_⟩, fun hnone => ?_⟩
  · simp only [MyServer.GetHouseId, hmod, Storage.GetApprovedFlatsByHouseId]
    rfl
  · refine congrArg (List.map scanFlat) (List.filter_congr fun row _ => ?_)
    by_cases h1 : row.house_unique_id = id <;> by_cases h2 : row.status = api.Approved <;>
      simp [h1, h2]
  · intro f hf
    simp only [List.mem_map, List.mem_filter] at hf
    obtain ⟨row, ⟨_, hrow⟩, rfl⟩ := hf
    simpa [scanFlat] using hrow
  · intro row hrow hid hst
    simp only [List.mem_map, List.mem_filter]
    exact ⟨row, ⟨hrow, by simp [hid, hst]⟩, rfl⟩
  · simp only [MyServer.GetHouseId, hmod, Storage.GetAllFlatsByHouseId]
    rfl
  · refine congrArg (List.map scanFlat) (List.filter_congr fun row _ => ?_)
    by_cases h1 : row.house_unique_id = id <;> simp [h1]
  · intro f hf
    simp only [List.mem_map, List.mem_filter] at hf
    obtain ⟨row, ⟨_, hrow⟩, rfl⟩ := hf
    simpa [scanFlat] using hrow
  · intro row hrow hid
    simp only [List.mem_map, List.mem_filter]
    exact ⟨row, ⟨hrow, by simp [hid]⟩, rfl⟩
  · have h1 : db.flats.filter (fun row => row.house_unique_id == id) = [] := by
      rw [List.filter_eq_nil_iff]
      intro row hrow
      simpa using hnone row hrow
    have h2 : db.flats.filter
        (fun row => row.house_unique_id == id && row.status == api.Approved) = [] := by
      rw [List.filter_eq_nil_iff]
      intro row hrow
      simp [hnone row hrow]
    cases hmod : MyServer.isModerator r <;>
      simp [MyServer.GetHouseId, hmod, Storage.GetAllFlatsByHouseId,
        Storage.GetApprovedFlatsByHouseId, h1, h2]

/-- C5: when `isModerator` does not recognise the caller, `PostFlatUpdate`
answers `Forbidden` (403) whatever the payload, and the database, so every
flat's status, is what it was: `UpdateFlat` is not reached. -/
theorem C5_postFlatUpdate_forbidden (r : Request api.Flat) (db : DB)
    (h : MyServer.isModerator r = false) :
    MyServer.PostFlatUpdate r db = (.error "Forbidden" StatusForbidden, db) := by
  simp [MyServer.PostFlatUpdate, h]

theorem C5_postFlatUpdate_forbidden_witness :
    MyServer.PostFlatUpdate { Authorization := "Bearer client-token", Body := some sampleFlat }
      sampleDB = (.error "Forbidden" 403, sampleDB) :=
  C5_postFlatUpdate_forbidden
    { Authorization := "Bearer client-token", Body := some sampleFlat } sampleDB (by decide)

/-- `UpdateFlat` does not change the key of a row. -/
theorem flatKeyMatches_comp_setStatus (u : api.FlatId) (k : api.HouseId) (st : api.Status) :
    (flatKeyMatches u k ∘ fun r : FlatRow =>
        if flatKeyMatches u k r then { r with status := st } else r) = flatKeyMatches u k := by
  funext x
  simp only [Function.comp]
  split <;> rfl

/-- With a row under the key, `UpdateFlat` rewrites the status of the rows
under that key and returns the first of them as re-read. -/
theorem updateFlat_found (flat : api.Flat) (db : DB) (stored : FlatRow)
    (h : db.flats.find? (flatKeyMatches flat.Id flat.HouseId) = some stored) :
    Storage.UpdateFlat flat db =
      (.ok (scanFlat { stored with status := flat.Status }),
       { db with flats := db.flats.map (fun r =>
          if flatKeyMatches flat.Id flat.HouseId r then { r with status := flat.Status }
          else r) }) := by
  have hm : flatKeyMatches flat.Id flat.HouseId stored = true := List.find?_some h
  unfold Storage.UpdateFlat
  simp only [List.find?_map, flatKeyMatches_comp_setStatus, h, Option.map_some', hm, if_true]

/-- Without a row under the key, `UpdateFlat` fails on the re-read and the
database is what it was. -/
theorem updateFlat_missing (flat : api.Flat) (db : DB)
    (h : ∀ r ∈ db.flats, ¬ (r.flat_id = flat.Id ∧ r.house_unique_id = flat.HouseId)) :
    Storage.UpdateFlat flat db = (.error .scanRow, db) := by
  have hmap : db.flats.map (fun r =>
      if flatKeyMatches flat.Id flat.HouseId r then { r with status := flat.Status } else r)
      = db.flats := by
    conv_rhs => rw [← List.map_id db.flats]
    apply List.map_congr_left
    intro r hr
    have : flatKeyMatches flat.Id flat.HouseId r = false := by
      simpa [flatKeyMatches] using h r hr
    simp [this]
  unfold Storage.UpdateFlat
  simp only [hmap, find?_flat_none _ _ _ h]

theorem forall₂_map_setStatus (rows : List FlatRow) (u : api.FlatId) (k : api.HouseId)
    (st : api.Status) :
    List.Forall₂ (fun old new : FlatRow =>
        if old.flat_id = u ∧ old.house_unique_id = k
        then new = { old with status := st } else new = old)
      rows (rows.map (fun r => if flatKeyMatches u k r then { r with status := st } else r)) := by
  induction rows with
  | nil => exact List.Forall₂.nil
  | cons x xs ih =>
    refine List.Forall₂.cons ?_ ih
    by_cases hx : x.flat_id = u ∧ x.house_unique_id = k
    · have : flatKeyMatches u k x = true := by simpa [flatKeyMatches] using hx
      simp [hx, this]
    · have : flatKeyMatches u k x = false := by simpa [flatKeyMatches] using hx
      simp [hx, this]

theorem C4_getHouseId_listing_witness :
    MyServer.GetHouseId (α := Unit) { Authorization := "Bearer client-token", Body := none } 1
        (runCalls [.CreateHouse 95 0 { sampleHouse with Id := 2 },
          .CreateFlat sampleFlat102, .CreateFlat { sampleFlat with HouseId := 2 },
          .UpdateFlat sampleFlat, .UpdateFlat { sampleFlat with HouseId := 2 }] sampleDB) =
      .json [{ HouseId := 1, Id := 101, Price := 100000, Rooms := 2, Status := "approved" }] ∧
    MyServer.GetHouseId (α := Unit) { Authorization := "Bearer moderator-token", Body := none } 1
        (runCalls [.CreateHouse 95 0 { sampleHouse with Id := 2 },
          .CreateFlat sampleFlat102, .CreateFlat { sampleFlat with HouseId := 2 },
          .UpdateFlat sampleFlat, .UpdateFlat { sampleFlat with HouseId := 2 }] sampleDB) =
      .json [{ HouseId := 1, Id := 101, Price := 100000, Rooms := 2, Status := "approved" },
             { HouseId := 1, Id := 102, Price := 120000, Rooms := 3, Status := "created" }] := by
  obtain ⟨flats, h1, h2, -⟩ := (C4_getHouseId_listing (α := Unit)
    { Authorization := "Bearer client-token", Body := none } 1
    (runCalls [.CreateHouse 95 0 { sampleHouse with Id := 2 },
      .CreateFlat sampleFlat102, .CreateFlat { sampleFlat with HouseId := 2 },
      .UpdateFlat sampleFlat, .UpdateFlat { sampleFlat with HouseId := 2 }] sampleDB)).1
    (by decide)
  obtain ⟨flats1, h3, h4, -⟩ := (C4_getHouseId_listing (α := Unit)
    { Authorization := "Bearer moderator-token", Body := none } 1
    (runCalls [.CreateHouse 95 0 { sampleHouse with Id := 2 },
      .CreateFlat sampleFlat102, .CreateFlat { sampleFlat with HouseId := 2 },
      .UpdateFlat sampleFlat, .UpdateFlat { sampleFlat with HouseId := 2 }] sampleDB)).2.1
    (by decide)
  subst h2
  subst h4
  exact ⟨h1.trans (by decide), h3.trans (by decide)⟩

/-- C8: for a flat whose house is stored and whose pair is free, whatever
status the payload carries, `CreateFlat` appends exactly one row to `flats` and
changes nothing else; the row and the returned flat have status `created` and
the payload's house id, unit number, price and rooms. -/
theorem C8_createFlat_inserts_created (flat : api.Flat) (db : DB)
    (hhouse : ∃ r ∈ db.houses, r.unique_id = flat.HouseId)
    (hfree : ∀ r ∈ db.flats, ¬ (r.flat_id = flat.Id ∧ r.house_unique_id = flat.HouseId)) :
    ∃ (created : api.Flat) (row : FlatRow) (db1 : DB),
      Storage.CreateFlat flat db = (.ok created, db1) ∧
      db1.flats = db.flats ++ [row] ∧ db1.houses = db.houses ∧
      row.status = api.Created ∧ row.house_unique_id = flat.HouseId ∧ row.flat_id = flat.Id ∧
      row.price = flat.Price ∧ row.rooms = flat.Rooms ∧
      created.Status = api.Created ∧ created.HouseId = flat.HouseId ∧ created.Id = flat.Id ∧
      created.Price = flat.Price ∧ created.Rooms = flat.Rooms :=
  ⟨_, _, _, createFlat_fresh flat db hhouse hfree, rfl, rfl, rfl, rfl, rfl, rfl, rfl, rfl, rfl,
    rfl, rfl, rfl⟩

theorem C8_createFlat_inserts_created_witness :
    ∃ (created : api.Flat) (row : FlatRow) (db1 : DB),
      Storage.CreateFlat sampleFlat (Storage.CreateHouse 90 0 sampleHouse DB.empty).2 =
        (.ok created, db1) ∧
      db1.flats = (Storage.CreateHouse 90 0 sampleHouse DB.empty).2.flats ++ [row] ∧
      db1.houses = (Storage.CreateHouse 90 0 sampleHouse DB.empty).2.houses ∧
      row.status = api.Created ∧ row.house_unique_id = sampleFlat.HouseId ∧
      row.flat_id = sampleFlat.Id ∧ row.price = sampleFlat.Price ∧ row.rooms = sampleFlat.Rooms ∧
      created.Status = api.Created ∧ created.HouseId = sampleFlat.HouseId ∧
      created.Id = sampleFlat.Id ∧ created.Price = sampleFlat.Price ∧
      created.Rooms = sampleFlat.Rooms :=
  C8_createFlat_inserts_created sampleFlat (Storage.CreateHouse 90 0 sampleHouse DB.empty).2
    ⟨⟨1, 1, "Main St", 2020, none, 90, none⟩, by decide, by decide⟩ (by decide)

/-- C9: with a row under the payload's key, `UpdateFlat` sets the status of
the rows under that key to the payload's status and changes nothing else: each
row keeps its key, price and rooms, rows under other keys and the table
`houses` are unchanged, and the returned flat is the stored row as it is after
the update (stored price and rooms, new status). -/
theorem C9_updateFlat_only_status (flat : api.Flat) (db : DB)
    (h : ∃ r ∈ db.flats, r.flat_id = flat.Id ∧ r.house_unique_id = flat.HouseId) :
    ∃ (updated : api.Flat) (db1 : DB) (stored : FlatRow),
      Storage.UpdateFlat flat db = (.ok updated, db1) ∧
      db1.houses = db.houses ∧
      List.Forall₂ (fun old new : FlatRow =>
        if old.flat_id = flat.Id ∧ old.house_unique_id = flat.HouseId
        then new = { old with status := flat.Status } else new = old) db.flats db1.flats ∧
      db.flats.find? (flatKeyMatches flat.Id flat.HouseId) = some stored ∧
      db1.flats.find? (flatKeyMatches flat.Id flat.HouseId) =
        some { stored with status := flat.Status } ∧
      updated = scanFlat { stored with status := flat.Status } ∧
      updated.HouseId = flat.HouseId ∧ updated.Id = flat.Id ∧
      updated.Price = stored.price ∧ updated.Rooms = stored.rooms ∧
      updated.Status = flat.Status := by
  obtain ⟨stored, hfind, hid, hhouse⟩ := find?_flat_isSome _ _ _ h
  have hm : flatKeyMatches flat.Id flat.HouseId stored = true := List.find?_some hfind
  refine ⟨_, _, stored, updateFlat_found flat db stored hfind, rfl,
    forall₂_map_setStatus db.flats flat.Id flat.HouseId flat.Status, hfind, ?_, rfl,
    hhouse, hid, rfl, rfl, rfl⟩
  simp only [List.find?_map, flatKeyMatches_comp_setStatus, hfind, Option.map_some', hm, if_true]

/-- C10: without a row under the payload's key, `UpdateFlat` returns an error
and the database is what it was; with such a row it returns no error. -/
theorem C10_updateFlat_not_found (flat : api.Flat) (db : DB) :
    ((∀ r ∈ db.flats, ¬ (r.flat_id = flat.Id ∧ r.house_unique_id = flat.HouseId)) →
      Storage.UpdateFlat flat db = (.error .scanRow, db)) ∧
    ((∃ r ∈ db.flats, r.flat_id = flat.Id ∧ r.house_unique_id = flat.HouseId) →
      ∃ (updated : api.Flat) (db1 : DB), Storage.UpdateFlat flat db = (.ok updated, db1)) := by
  refine ⟨updateFlat_missing flat db, fun h => ?_⟩
  obtain ⟨stored, hfind, -⟩ := find?_flat_isSome _ _ _ h
  exact ⟨_, _, updateFlat_found flat db stored hfind⟩

theorem C9_updateFlat_only_status_witness :
    (∃ (updated : api.Flat) (db1 : DB) (stored : FlatRow),
      Storage.UpdateFlat { sampleFlat with Price := 5, Rooms := 9 } sampleDB = (.ok updated, db1) ∧
      db1.houses = sampleDB.houses ∧
      List.Forall₂ (fun old new : FlatRow =>
        if old.flat_id = 101 ∧ old.house_unique_id = 1
        then new = { old with status := "approved" } else new = old) sampleDB.flats db1.flats ∧
      sampleDB.flats.find? (flatKeyMatches 101 1) = some stored ∧
      db1.flats.find? (flatKeyMatches 101 1) = some { stored with status := "approved" } ∧
      updated = scanFlat { stored with status := "approved" } ∧
      updated.HouseId = 1 ∧ updated.Id = 101 ∧
      updated.Price = stored.price ∧ updated.Rooms = stored.rooms ∧
      updated.Status = "approved") ∧
    Storage.UpdateFlat { sampleFlat with Price := 5, Rooms := 9 } sampleDB =
      (.ok { HouseId := 1, Id := 101, Price := 100000, Rooms := 2, Status := "approved" },
       { houses := [⟨1, 1, "Main St", 2020, none, 90, some 100⟩],
         flats := [⟨1, 1, 101, 100000, 2, "approved"⟩] }) :=
  ⟨C9_updateFlat_only_status { sampleFlat with Price := 5, Rooms := 9 } sampleDB
      ⟨⟨1, 1, 101, 100000, 2, "created"⟩, by decide, by decide⟩,
    by decide⟩

theorem C10_updateFlat_not_found_witness :
    Storage.UpdateFlat { sampleFlat with Id := 999 } sampleDB = (.error .scanRow, sampleDB) ∧
    ∃ (updated : api.Flat) (db1 : DB), Storage.UpdateFlat sampleFlat sampleDB = (.ok updated, db1) :=
  ⟨(C10_updateFlat_not_found { sampleFlat with Id := 999 } sampleDB).1 (by decide),
   (C10_updateFlat_not_found sampleFlat sampleDB).2
      ⟨⟨1, 1, 101, 100000, 2, "created"⟩, by decide, by decide⟩⟩

/-- With a row of `houses` for the id, `UpdateHouseTimestamp` succeeds and
stamps the rows of that id with the clock reading. -/
theorem updateHouseTimestamp_ok (now : Time) (houseId : api.HouseId) (db : DB)
    (h : ∃ r ∈ db.houses, r.unique_id = houseId) :
    Storage.UpdateHouseTimestamp now houseId db =
      (.ok (), { db with houses := db.houses.map (fun r =>
        if r.unique_id == houseId then { r with update_at := some now } else r) }) := by
  have hne : (db.houses.filter (fun r => r.unique_id == houseId)).length ≠ 0 := by
    obtain ⟨r, hr, hk⟩ := h
    have hmem : r ∈ db.houses.filter (fun r => r.unique_id == houseId) := by
      rw [List.mem_filter]
      exact ⟨hr, by simpa using hk⟩
    intro hlen
    rw [List.length_eq_zero] at hlen
    rw [hlen] at hmem
    exact absurd hmem (List.not_mem_nil r)
  unfold Storage.UpdateHouseTimestamp
  simp [hne]

/-- After the stamp, the house's `update_at` is the clock reading. -/
theorem houseUpdateAt_stamped (now : Time) (houseId : api.HouseId) (db db1 : DB)
    (h : ∃ r ∈ db.houses, r.unique_id = houseId)
    (hh : db1.houses = db.houses.map (fun r =>
        if r.unique_id == houseId then { r with update_at := some now } else r)) :
    houseUpdateAt db1 houseId = some now := by
  obtain ⟨r, hr⟩ := find?_house_isSome _ _ h
  have hm : (r.unique_id == houseId) = true :=
    @List.find?_some _ (fun r : HouseRow => r.unique_id == houseId) _ _ hr
  have hcomp : ((fun r : HouseRow => r.unique_id == houseId) ∘ fun r : HouseRow =>
      if r.unique_id == houseId then { r with update_at := some now } else r) =
      fun r => r.unique_id == houseId := by
    funext x
    simp only [Function.comp]
    split <;> rfl
  unfold houseUpdateAt
  simp only [hh, List.find?_map, hcomp, hr, Option.map_some', hm, if_true]

/-- What a successful `PostFlatCreate` did: the house was stored, the key was
free, one row went into `flats` and the house's rows were stamped. -/
theorem postFlatCreate_json (now : Time) (r : Request api.Flat) (flat created : api.Flat)
    (db db1 : DB) (hbody : r.Body = some flat)
    (hok : MyServer.PostFlatCreate now r db = (.json created, db1)) :
    (∃ row ∈ db.houses, row.unique_id = flat.HouseId) ∧
    db1.houses = db.houses.map (fun row =>
      if row.unique_id == flat.HouseId then { row with update_at := some now } else row) := by
  unfold MyServer.PostFlatCreate at hok
  simp only [hbody] at hok
  by_cases hhouse : ∃ row ∈ db.houses, row.unique_id = flat.HouseId
  · by_cases hfree : ∀ x ∈ db.flats, ¬ (x.flat_id = flat.Id ∧ x.house_unique_id = flat.HouseId)
    · refine ⟨hhouse, ?_⟩
      rw [createFlat_fresh flat db hhouse hfree] at hok
      simp only at hok
      rw [updateHouseTimestamp_ok now flat.HouseId
        { houses := db.houses,
          flats := db.flats ++
            [{ id := nextFlatRowId db.flats, house_unique_id := flat.HouseId, flat_id := flat.Id,
               price := flat.Price, rooms := flat.Rooms, status := api.Created }] } hhouse] at hok
      simp only [Prod.mk.injEq] at hok
      rw [← hok.2]
    · push_neg at hfree
      obtain ⟨e, he⟩ := createFlat_duplicate flat db hfree
      rw [he] at hok
      simp at hok
  · push_neg at hhouse
    rw [createFlat_no_house flat db hhouse] at hok
    simp at hok

/-- C6 (as amended): after a `PostFlatCreate` that was accepted, the house's
`update_at` is the clock reading of the call in whole seconds; it is strictly
greater than the value before the call exactly when that value was null or an
earlier second. -/
theorem C6_updatedAt_is_clock_reading (now : Time) (r : Request api.Flat)
    (flat created : api.Flat) (db db1 : DB) (hbody : r.Body = some flat)
    (hok : MyServer.PostFlatCreate now r db = (.json created, db1)) :
    houseUpdateAt db1 flat.HouseId = some now ∧
    (timeLt (houseUpdateAt db flat.HouseId) (houseUpdateAt db1 flat.HouseId) = true ↔
      (houseUpdateAt db flat.HouseId = none ∨
        ∃ t, houseUpdateAt db flat.HouseId = some t ∧ t < now)) := by
  obtain ⟨hhouse, hh⟩ := postFlatCreate_json now r flat created db db1 hbody hok
  have h1 := houseUpdateAt_stamped now flat.HouseId db db1 hhouse hh
  refine ⟨h1, ?_⟩
  rw [h1]
  cases houseUpdateAt db flat.HouseId with
  | none => simp [timeLt]
  | some t => simp [timeLt]

theorem C6_updatedAt_is_clock_reading_witness :
    houseUpdateAt (MyServer.PostFlatCreate 101
        { Authorization := "", Body := some sampleFlat102 } sampleDB).2 1 = some 101 ∧
    (timeLt (houseUpdateAt sampleDB 1)
        (houseUpdateAt (MyServer.PostFlatCreate 101
          { Authorization := "", Body := some sampleFlat102 } sampleDB).2 1) = true ↔
      (houseUpdateAt sampleDB 1 = none ∨ ∃ t, houseUpdateAt sampleDB 1 = some t ∧ t < 101)) :=
  C6_updatedAt_is_clock_reading 101 { Authorization := "", Body := some sampleFlat102 }
    sampleFlat102 { sampleFlat102 with Status := "created" } sampleDB
    (MyServer.PostFlatCreate 101 { Authorization := "", Body := some sampleFlat102 } sampleDB).2
    rfl (by decide)

/-- C6 (as stated) fails: unit 101 is posted under house 1 at second 100,
unit 102 right after it in the same second; the second call is accepted and the
house's `update_at` is `100` before and after it, not strictly greater. -/
theorem C6_counterexample :
    MyServer.PostFlatCreate 100 { Authorization := "", Body := some sampleFlat102 } sampleDB =
      (.json { HouseId := 1, Id := 102, Price := 120000, Rooms := 3, Status := "created" },
       { houses := [⟨1, 1, "Main St", 2020, none, 90, some 100⟩],
         flats := [⟨1, 1, 101, 100000, 2, "created"⟩, ⟨2, 1, 102, 120000, 3, "created"⟩] }) ∧
    houseUpdateAt sampleDB 1 = some 100 ∧
    houseUpdateAt (MyServer.PostFlatCreate 100
      { Authorization := "", Body := some sampleFlat102 } sampleDB).2 1 = some 100 ∧
    timeLt (houseUpdateAt sampleDB 1)
      (houseUpdateAt (MyServer.PostFlatCreate 100
        { Authorization := "", Body := some sampleFlat102 } sampleDB).2 1) = false := by
  decide

/-- C7 (as amended): for a house whose id is not yet stored, whatever the
payload carries in `CreatedAt` and `UpdateAt`, a successful `CreateHouse`
appends one row and returns it: its `update_at` is the payload's `UpdateAt`
(null when the payload carries none), and id, address, year and developer are
the payload's. -/
theorem C7_createHouse_stores_payload (now : Time) (zoneOffset : Int)
    (house created : api.House) (db db1 : DB)
    (h : ∀ r ∈ db.houses, r.unique_id ≠ house.Id)
    (hok : Storage.CreateHouse now zoneOffset house db = (.ok created, db1)) :
    ∃ row : HouseRow,
      db1.houses = db.houses ++ [row] ∧ db1.flats = db.flats ∧
      row.unique_id = house.Id ∧ row.address = house.Address ∧ row.year = house.Year ∧
      row.developer = house.Developer ∧ row.update_at = house.UpdateAt ∧
      created.Id = house.Id ∧ created.Address = house.Address ∧ created.Year = house.Year ∧
      created.Developer = house.Developer ∧ created.UpdateAt = house.UpdateAt := by
  rw [createHouse_fresh now zoneOffset house db h] at hok
  obtain ⟨hcreated, hdb⟩ := Prod.mk.inj hok
  have hc : created = { house with CreatedAt := some (now + zoneOffset) } :=
    (Except.ok.inj hcreated).symm
  subst hc
  subst hdb
  exact ⟨_, rfl, rfl, rfl, rfl, rfl, rfl, rfl, rfl, rfl, rfl, rfl, rfl⟩

theorem C7_createHouse_stores_payload_witness :
    ∃ row : HouseRow,
      (Storage.CreateHouse 100 32400
          { sampleHouse with Id := 2, CreatedAt := some 7, UpdateAt := some 5 }
          sampleDB).2.houses = sampleDB.houses ++ [row] ∧
      (Storage.CreateHouse 100 32400
          { sampleHouse with Id := 2, CreatedAt := some 7, UpdateAt := some 5 }
          sampleDB).2.flats = sampleDB.flats ∧
      row.unique_id = 2 ∧ row.address = "Main St" ∧ row.year = 2020 ∧
      row.developer = none ∧ row.update_at = some 5 ∧
      ({ sampleHouse with Id := 2, CreatedAt := some 32500, UpdateAt := some 5 } : api.House).Id
        = 2 ∧
      ({ sampleHouse with Id := 2, CreatedAt := some 32500, UpdateAt := some 5 }
        : api.House).Address = "Main St" ∧
      ({ sampleHouse with Id := 2, CreatedAt := some 32500, UpdateAt := some 5 }
        : api.House).Year = 2020 ∧
      ({ sampleHouse with Id := 2, CreatedAt := some 32500, UpdateAt := some 5 }
        : api.House).Developer = none ∧
      ({ sampleHouse with Id := 2, CreatedAt := some 32500, UpdateAt := some 5 }
        : api.House).UpdateAt = some 5 :=
  C7_createHouse_stores_payload 100 32400
    { sampleHouse with Id := 2, CreatedAt := some 7, UpdateAt := some 5 }
    { sampleHouse with Id := 2, CreatedAt := some 32500, UpdateAt := some 5 }
    sampleDB
    (Storage.CreateHouse 100 32400
      { sampleHouse with Id := 2, CreatedAt := some 7, UpdateAt := some 5 } sampleDB).2
    (by decide) (by decide)

/-- C7 (as stated) fails: a payload whose id is not stored and that carries
`UpdateAt = 5` (and `CreatedAt = 7`) is stored and returned with
`update_at = 5`, not null (the process zone is UTC here). -/
theorem C7_counterexample :
    Storage.CreateHouse 100 0 { sampleHouse with CreatedAt := some 7, UpdateAt := some 5 }
        DB.empty =
      (.ok { Id := 1, Address := "Main St", Year := 2020, Developer := none,
             CreatedAt := some 100, UpdateAt := some 5 },
       { houses := [⟨1, 1, "Main St", 2020, none, 100, some 5⟩], flats := [] }) ∧
    (∀ r ∈ DB.empty.houses, r.unique_id ≠ (1 : api.HouseId)) ∧
    (some 5 : Option Time) ≠ none := by
  decide
